import Mathlib

/-!
Verification of the adaptive media-source selection and failure-recovery
engine of the Tom-Teller repository, as a shallow embedding of
`src/utils/VideoErrorHandler.js`, `src/utils/VideoSourceManager.js` and
`src/config/videoConfig.js` in Lean.

Each definition mirrors one JavaScript function of the source; JS strings
become Lean `String`, JS numbers become `Nat`, `Int` or `ℚ`, absent or
`null`/`undefined` values become `Option`, and the one reachable runtime
`TypeError` becomes `Except Unit`.
-/

namespace TomTeller

/-! ## JavaScript string and list primitives -/

/-- Whether the character list `s` begins with the character list `pat`. -/
def startsWithChars : List Char → List Char → Bool
  | _, [] => true
  | [], _ :: _ => false
  | c :: cs, p :: ps => c = p && startsWithChars cs ps

/-- Whether the character list `pat` occurs contiguously inside `s`. -/
def hasSubChars (pat : List Char) : List Char → Bool
  | [] => pat.isEmpty
  | c :: cs => startsWithChars (c :: cs) pat || hasSubChars pat cs

/-- JS `/pat/i.test(msg)` for the literal (regex-metacharacter-free)
patterns used by VideoErrorHandler: case-insensitive substring test. -/
def strTest (pat msg : String) : Bool :=
  hasSubChars (pat.data.map Char.toLower) (msg.data.map Char.toLower)

/-- JS `Array.prototype.indexOf`: index of the first occurrence of `q`,
or `-1` when absent. -/
def jsIndexOf : List String → String → Int
  | [], _ => -1
  | x :: rest, q =>
    if x = q then 0
    else
      let r := jsIndexOf rest q
      if r = -1 then -1 else r + 1

/-- JS object property lookup `obj[key]` over an association list,
yielding `none` for an absent property (JS `undefined`). -/
def jsLookup {α : Type} : List (String × α) → String → Option α
  | [], _ => none
  | (k, v) :: rest, key => if k = key then some v else jsLookup rest key

/-! ## Data model of VideoErrorHandler.js -/

/-- The `ERROR_TYPES` constant of VideoErrorHandler.js. -/
inductive ErrorType : Type
  | network_error
  | codec_error
  | performance_error
  | loading_error
  | playback_error
  | timeout_error
  deriving DecidableEq, Repr

/-- The `FALLBACK_STRATEGIES` constant of VideoErrorHandler.js. -/
inductive Strategy : Type
  | retry
  | reduce_quality
  | static_background
  | disable_video
  deriving DecidableEq, Repr

/-- Constructor options of the VideoErrorHandler class (defaults:
maxRetries 3, retryDelay 1000, performanceThreshold 5000,
networkTimeout 10000). -/
structure Config : Type where
  maxRetries : Nat
  retryDelay : ℚ
  performanceThreshold : Nat
  networkTimeout : Nat
  deriving DecidableEq, Repr

/-- The default configuration of the VideoErrorHandler constructor. -/
def defaultConfig : Config := ⟨3, 1000, 5000, 10000⟩

/-- An error value; `message` is the effective error text
(`error.message || error.toString()`). -/
structure Err : Type where
  message : String
  deriving DecidableEq, Repr

/-- The `error` property of an HTML media element (`MediaError`),
carrying its numeric `code`. -/
structure MediaErr : Type where
  code : Nat
  deriving DecidableEq, Repr

/-- The media element as the handler sees it: only its `error` property
is read (absent when the element reports no error). -/
structure VideoElement : Type where
  error : Option MediaErr
  deriving DecidableEq, Repr

/-- The `networkInfo` object optionally passed in the context. -/
structure NetworkInfo : Type where
  effectiveType : String
  deriving DecidableEq, Repr

/-- The `context` argument of `handleError` / `classifyError`.
`loadTime` and `stallCount` are `Option` because the JS code guards them
with truthiness checks. -/
structure Ctx : Type where
  videoElement : Option VideoElement
  networkInfo : Option NetworkInfo
  loadTime : Option Nat
  stallCount : Option Nat
  currentQuality : Option String
  deriving DecidableEq, Repr

/-- Ambient connection information read by NetworkMonitor.getConnectionInfo:
`isOnline` is `navigator.onLine` (also read directly by `isNetworkError`),
the rest comes from `navigator.connection`. -/
structure ConnectionInfo : Type where
  isOnline : Bool
  effectiveType : String
  downlink : Option ℚ
  rtt : Option ℚ
  saveData : Bool
  deriving DecidableEq, Repr

/-- The object returned by NetworkMonitor.checkNetworkStatus. -/
structure NetworkStatus : Type where
  isOnline : Bool
  isSlowConnection : Bool
  isSaveDataEnabled : Bool
  effectiveType : String
  estimatedBandwidth : Option ℚ
  roundTripTime : Option ℚ
  deriving DecidableEq, Repr

/-- NetworkMonitor.isSlowConnection: effectiveType slow-2g or 2g, or a
truthy downlink below 1.5 Mbps (a downlink of 0 is falsy in JS). -/
def isSlowConnection (c : ConnectionInfo) : Bool :=
  c.effectiveType = "slow-2g" || c.effectiveType = "2g" ||
    (match c.downlink with
      | some d => !(decide (d = 0)) && decide (d < 3/2)
      | none => false)

/-- NetworkMonitor.checkNetworkStatus. -/
def checkNetworkStatus (c : ConnectionInfo) : NetworkStatus :=
  ⟨c.isOnline, isSlowConnection c, c.saveData, c.effectiveType, c.downlink, c.rtt⟩

/-! ## ErrorClassifier (VideoErrorHandler.classifyError and its predicates) -/

/-- The `networkErrorPatterns` array of `isNetworkError`. -/
def networkErrorPatterns : List String :=
  ["network", "connection", "timeout", "fetch", "cors", "net::"]

/-- The `codecErrorPatterns` array of `isCodecError`. -/
def codecErrorPatterns : List String :=
  ["codec", "format", "decode", "unsupported",
   "media_err_src_not_supported", "media_err_decode"]

/-- VideoErrorHandler.isNetworkError: message matches a network pattern,
or the browser is offline (`!navigator.onLine`), or the context reports a
slow-2g effective type. -/
def isNetworkError (e : Err) (online : Bool) (networkInfo : Option NetworkInfo) : Bool :=
  let hasNetworkPattern := networkErrorPatterns.any (fun p => strTest p e.message)
  let isOffline := !online
  let hasSlowConnection :=
    match networkInfo with
    | some ni => ni.effectiveType = "slow-2g"
    | none => false
  hasNetworkPattern || isOffline || hasSlowConnection

/-- VideoErrorHandler.isCodecError: with a media-element error, codes 4
(MEDIA_ERR_SRC_NOT_SUPPORTED) and 3 (MEDIA_ERR_DECODE); otherwise message
patterns. Returns false with no element. -/
def isCodecError (e : Err) (videoElement : Option VideoElement) : Bool :=
  match videoElement with
  | none => false
  | some v =>
    match v.error with
    | some me => me.code = 4 || me.code = 3
    | none => codecErrorPatterns.any (fun p => strTest p e.message)

/-- VideoErrorHandler.isPerformanceError: truthy loadTime above the
performance threshold, truthy stallCount above 3, or high memory pressure
reported by the PerformanceMonitor (passed here as `memoryPressureHigh`). -/
def isPerformanceError (cfg : Config) (ctx : Ctx) (memoryPressureHigh : Bool) : Bool :=
  (match ctx.loadTime with
    | some t => decide (t > cfg.performanceThreshold)
    | none => false) ||
  (match ctx.stallCount with
    | some s => decide (s > 3)
    | none => false) ||
  memoryPressureHigh

/-- VideoErrorHandler.isTimeoutError: message matches `timeout`, or truthy
loadTime above the network timeout. -/
def isTimeoutError (cfg : Config) (e : Err) (ctx : Ctx) : Bool :=
  strTest "timeout" e.message ||
  (match ctx.loadTime with
    | some t => decide (t > cfg.networkTimeout)
    | none => false)

/-- VideoErrorHandler.classifyError: the cascade of predicate checks, in
source order, defaulting to loading_error. -/
def classifyError (cfg : Config) (e : Err) (ctx : Ctx)
    (online : Bool) (memoryPressureHigh : Bool) : ErrorType :=
  if isNetworkError e online ctx.networkInfo then .network_error
  else if isCodecError e ctx.videoElement then .codec_error
  else if isPerformanceError cfg ctx memoryPressureHigh then .performance_error
  else if isTimeoutError cfg e ctx then .timeout_error
  else if (match ctx.videoElement with
            | some v => v.error.isSome
            | none => false) then .playback_error
  else .loading_error

/-- First-match evaluation of an ordered list of (predicate value, kind)
pairs with a default kind; this is the evaluation order the specification
describes for the classifier, written independently of `classifyError`. -/
def firstMatch : List (Bool × ErrorType) → ErrorType → ErrorType
  | [], d => d
  | (b, k) :: rest, d => if b then k else firstMatch rest d

/-! ## RecoveryPlanner (strategy selection) -/

/-- VideoErrorHandler.getFinalFallbackStrategy: the terminal strategy per
error kind once retries are exhausted. -/
def getFinalFallbackStrategy (errorType : ErrorType) : Strategy :=
  match errorType with
  | .network_error => .static_background
  | .codec_error => .static_background
  | .performance_error => .disable_video
  | _ => .static_background

/-- VideoErrorHandler.getNetworkErrorStrategy: offline wins, then slow
connection, then retry. -/
def getNetworkErrorStrategy (net : NetworkStatus) : Strategy :=
  if !net.isOnline then .static_background
  else if net.isSlowConnection then .reduce_quality
  else .retry

/-- VideoErrorHandler.determineRecoveryStrategy: final fallback once
`retryCount >= maxRetries`, otherwise a per-kind strategy. `retryCount`
is the value recorded in the errorInfo at handleError time. -/
def determineRecoveryStrategy (cfg : Config) (errorType : ErrorType)
    (retryCount : Nat) (net : NetworkStatus) : Strategy :=
  if retryCount ≥ cfg.maxRetries then getFinalFallbackStrategy errorType
  else
    match errorType with
    | .network_error => getNetworkErrorStrategy net
    | .codec_error => .reduce_quality
    | .performance_error => .reduce_quality
    | .timeout_error => .retry
    | .playback_error => if retryCount < 2 then .retry else .reduce_quality
    | .loading_error => if retryCount < 2 then .retry else .reduce_quality

/-! ## Recovery-action construction -/

/-- The object returned by VideoErrorHandler.calculateQualityReduction;
`fromQuality` and `toQuality` embed its JS fields `from` and `to`. -/
structure QualityReduction : Type where
  fromQuality : String
  toQuality : String
  reason : String
  deriving DecidableEq, Repr

/-- The `qualityLevels` array of calculateQualityReduction
(highest first, as in the source). -/
def qualityLevels : List String := ["high", "medium", "low"]

/-- VideoErrorHandler.calculateQualityReduction. `ctxQuality` is
`context.currentQuality`; a missing or empty (falsy) value defaults to
`high`. Performance errors step one index down the `qualityLevels`
array (clamping at `low`); network errors drop straight to `low` on a
slow connection and otherwise step one index down (or stay); all other
kinds keep the current quality with reason `error_recovery`. -/
def calculateQualityReduction (errorType : ErrorType) (ctxQuality : Option String)
    (net : NetworkStatus) : QualityReduction :=
  let currentQuality :=
    match ctxQuality with
    | some q => if q = "" then "high" else q
    | none => "high"
  let currentIndex := jsIndexOf qualityLevels currentQuality
  if errorType = .performance_error then
    let targetQuality :=
      if currentIndex < (qualityLevels.length : Int) - 1 then
        qualityLevels.getD (currentIndex + 1).toNat "low"
      else "low"
    ⟨currentQuality, targetQuality, "performance_optimization"⟩
  else if errorType = .network_error then
    if net.isSlowConnection then
      ⟨currentQuality, "low", "network_optimization"⟩
    else
      let targetQuality :=
        if currentIndex < (qualityLevels.length : Int) - 1 then
          qualityLevels.getD (currentIndex + 1).toNat "low"
        else currentQuality
      ⟨currentQuality, targetQuality, "error_recovery"⟩
  else
    ⟨currentQuality, currentQuality, "error_recovery"⟩

/-- VideoErrorHandler.calculateRetryDelay: exponential backoff from the
pre-increment retry count, plus a jitter drawn from [0, 1000), capped at
10000 ms. The jitter is passed explicitly (the source draws it from
Math.random). -/
def calculateRetryDelay (cfg : Config) (retryCount : Nat) (jitter : ℚ) : ℚ :=
  min (cfg.retryDelay * 2 ^ retryCount + jitter) 10000

/-- The action object built by VideoErrorHandler.executeRecoveryStrategy:
only the fields the chosen strategy sets are present. -/
structure RecoveryAction : Type where
  strategy : Strategy
  delay : Option ℚ
  qualityReduction : Option QualityReduction
  fallbackType : Option String
  deriving DecidableEq, Repr

/-- VideoErrorHandler.executeRecoveryStrategy: builds the action and
returns the updated retry count. Only the retry branch computes a delay
(before incrementing the count) and increments `retryCount`. -/
def executeRecoveryStrategy (cfg : Config) (strategy : Strategy)
    (errorType : ErrorType) (ctxQuality : Option String) (net : NetworkStatus)
    (retryCount : Nat) (jitter : ℚ) : RecoveryAction × Nat :=
  match strategy with
  | .retry =>
    (⟨.retry, some (calculateRetryDelay cfg retryCount jitter), none, none⟩,
      retryCount + 1)
  | .reduce_quality =>
    (⟨.reduce_quality, none,
      some (calculateQualityReduction errorType ctxQuality net), none⟩,
      retryCount)
  | .static_background =>
    (⟨.static_background, none, none, some "static"⟩, retryCount)
  | .disable_video =>
    (⟨.disable_video, none, none, some "disabled"⟩, retryCount)

/-! ## Handler state and the full handleError step -/

/-- The `performanceMetrics` field of the VideoErrorHandler instance. -/
structure PerformanceMetrics : Type where
  loadStartTime : Option Nat
  firstFrameTime : Option Nat
  stallCount : Nat
  bufferingTime : Nat
  deriving DecidableEq, Repr

/-- Per-session state. `retryCount` and `metrics` are fields of the
VideoErrorHandler instance; `currentQuality` is the quality tier the
session currently plays, held by the caller and handed to `handleError`
as `context.currentQuality`. It is carried here so that frame properties
of the reset entry points can be stated; no handler entry point writes
it. -/
structure SessionState : Type where
  retryCount : Nat
  metrics : PerformanceMetrics
  currentQuality : String
  deriving DecidableEq, Repr

/-- One `handleError` call: classify the failure, pick a strategy using
the retry count recorded in the errorInfo, and execute it. The ambient
browser state is `conn` (both `navigator.onLine` and
`navigator.connection`, so classification and planning read the same
values) and `memoryPressureHigh` (the PerformanceMonitor answer);
`jitter` is the Math.random draw used by a retry. -/
def handleErrorStep (cfg : Config) (st : SessionState) (e : Err) (ctx : Ctx)
    (conn : ConnectionInfo) (memoryPressureHigh : Bool) (jitter : ℚ) :
    RecoveryAction × SessionState :=
  let errorType := classifyError cfg e ctx conn.isOnline memoryPressureHigh
  let net := checkNetworkStatus conn
  let strategy := determineRecoveryStrategy cfg errorType st.retryCount net
  let res :=
    executeRecoveryStrategy cfg strategy errorType ctx.currentQuality net
      st.retryCount jitter
  (res.1, { st with retryCount := res.2 })

/-- VideoErrorHandler.reset: zero the retry count and clear the
performance metrics. -/
def reset (st : SessionState) : SessionState :=
  { st with retryCount := 0, metrics := ⟨none, none, 0, 0⟩ }

/-- VideoErrorHandler.recordSuccessfulLoad at wall-clock time `now`:
record the first-frame time and zero the retry count. -/
def recordSuccessfulLoad (st : SessionState) (now : Nat) : SessionState :=
  let loadTime := now - (st.metrics.loadStartTime.getD now)
  { st with
      metrics := { st.metrics with firstFrameTime := some loadTime },
      retryCount := 0 }

/-! ## SourceSelector (VideoSourceManager.js over videoConfig.js) -/

/-- One catalog entry of `VIDEO_SOURCE_CONFIG[deviceType][quality]`. -/
structure QualityConfig : Type where
  mp4 : String
  webm : String
  resolution : String
  bitrate : String
  deriving DecidableEq, Repr

/-- The per-device-class part of the catalog, keyed by quality tier. -/
def DeviceConfig : Type := List (String × QualityConfig)

/-- The source catalog (`VIDEO_SOURCE_CONFIG`), keyed by device type. -/
def Catalog : Type := List (String × DeviceConfig)

/-- A source object pushed by getDeviceSpecificSources or
getFallbackSources; the fallback source carries no bitrate field. -/
structure Source : Type where
  src : String
  type : String
  quality : String
  resolution : String
  bitrate : Option String
  deriving DecidableEq, Repr

/-- The `sources` accumulator of getDeviceSpecificSources. -/
structure Sources : Type where
  webm : List Source
  mp4 : List Source
  deriving DecidableEq, Repr

/-- The `DEFAULT_CONFIG.fallbackVideo` asset of videoConfig.js. -/
def fallbackVideo : String := "background-video.mp4"

/-- VideoSourceManager.getFallbackSources: the single-entry list pointing
at the configured default asset. -/
def getFallbackSources (baseUrl : String) : Sources :=
  ⟨[], [⟨baseUrl ++ fallbackVideo, "video/mp4", "medium", "unknown", none⟩]⟩

/-- VideoSourceManager.getFallbackQualities: the tiers strictly after the
current one in [high, medium, low] (everything, if the current tier is
not in the list, since indexOf yields -1). -/
def getFallbackQualities (currentQuality : String) : List String :=
  let qualityOrder : List String := ["high", "medium", "low"]
  let currentIndex := jsIndexOf qualityOrder currentQuality
  qualityOrder.drop (currentIndex + 1).toNat

/-- A webm source object as built in getDeviceSpecificSources. -/
def mkWebmSource (baseUrl quality : String) (c : QualityConfig) : Source :=
  ⟨baseUrl ++ c.webm, "video/webm", quality, c.resolution, some c.bitrate⟩

/-- An mp4 source object as built in getDeviceSpecificSources. -/
def mkMp4Source (baseUrl quality : String) (c : QualityConfig) : Source :=
  ⟨baseUrl ++ c.mp4, "video/mp4", quality, c.resolution, some c.bitrate⟩

/-- The fallback-quality loop of getDeviceSpecificSources. Reading
`primaryConfig.mp4` with `primaryConfig` undefined is the JS TypeError,
modelled as `Except.error ()`; it is reached exactly when a fallback
entry exists while the primary entry is absent. -/
def fallbackLoop (baseUrl : String) (deviceConfig : DeviceConfig)
    (primaryConfig : Option QualityConfig) (acc : Sources) :
    List String → Except Unit Sources
  | [] => Except.ok acc
  | fq :: rest =>
    match jsLookup deviceConfig fq with
    | none => fallbackLoop baseUrl deviceConfig primaryConfig acc rest
    | some fc =>
      match primaryConfig with
      | none => Except.error ()
      | some pc =>
        if fc.mp4 ≠ pc.mp4 then
          let acc : Sources :=
            ⟨acc.webm ++
              (if fc.webm ≠ fc.mp4 ∧ fc.webm ≠ pc.webm then
                [mkWebmSource baseUrl fq fc] else []),
             acc.mp4 ++
              (if fc.mp4 ≠ pc.mp4 then [mkMp4Source baseUrl fq fc] else [])⟩
          fallbackLoop baseUrl deviceConfig primaryConfig acc rest
        else fallbackLoop baseUrl deviceConfig primaryConfig acc rest

/-- VideoSourceManager.getDeviceSpecificSources: fall back to the default
asset when the device class is absent from the catalog; otherwise emit
the primary descriptor (when present) and then the lower-tier
descriptors. -/
def getDeviceSpecificSources (catalog : Catalog) (deviceType : String)
    (baseUrl : String) (quality : String) : Except Unit Sources :=
  match jsLookup catalog deviceType with
  | none => Except.ok (getFallbackSources baseUrl)
  | some deviceConfig =>
    let primaryConfig := jsLookup deviceConfig quality
    let initial : Sources :=
      match primaryConfig with
      | some pc =>
        ⟨if pc.webm ≠ pc.mp4 then [mkWebmSource baseUrl quality pc] else [],
         [mkMp4Source baseUrl quality pc]⟩
      | none => ⟨[], []⟩
    if quality = "low" then Except.ok initial
    else
      fallbackLoop baseUrl deviceConfig primaryConfig initial
        (getFallbackQualities quality)

/-! ## Quality selection (determineOptimalQuality over QUALITY_SELECTION_RULES) -/

/-- A value of the `QUALITY_SELECTION_RULES` table: either a fixed tier
string or a per-device-class map. -/
inductive QualityRule : Type
  | str (q : String)
  | perDevice (m : List (String × String))
  deriving DecidableEq, Repr

/-- The rule table type of `QUALITY_SELECTION_RULES`, keyed by
connection type. -/
def RulesTable : Type := List (String × QualityRule)

/-- The `QUALITY_SELECTION_RULES` table of videoConfig.js. -/
def QUALITY_SELECTION_RULES : RulesTable :=
  [("slow-2g", .str "low"),
   ("2g", .str "low"),
   ("3g", .perDevice [("mobile", "medium"), ("tablet", "medium"), ("desktop", "medium")]),
   ("4g", .perDevice [("mobile", "medium"), ("tablet", "high"), ("desktop", "high")]),
   ("wifi", .perDevice [("mobile", "medium"), ("tablet", "high"), ("desktop", "high")])]

/-- VideoSourceManager.determineOptimalQuality over an arbitrary rule
table: a string rule is returned directly; a per-device rule is looked
up by device type (a missing or empty, hence falsy, entry falls through
to medium) and then subject to the high-DPI mobile boost; everything
else resolves to medium. -/
def determineOptimalQuality (rules : RulesTable) (deviceType connectionType : String)
    (pixelRatio : ℚ) : String :=
  match jsLookup rules connectionType with
  | some (.str q) => q
  | some (.perDevice m) =>
    match jsLookup m deviceType with
    | some q =>
      if q = "" then "medium"
      else if deviceType = "mobile" ∧ pixelRatio > 2 ∧
          (connectionType = "4g" ∨ connectionType = "wifi") ∧ q = "low" then
        "medium"
      else q
    | none => "medium"
  | none => "medium"

/-! ## General lemmas about the planner step -/

theorem executeRecoveryStrategy_fst_strategy (cfg : Config) (s : Strategy)
    (t : ErrorType) (q : Option String) (net : NetworkStatus) (rc : Nat) (j : ℚ) :
    (executeRecoveryStrategy cfg s t q net rc j).1.strategy = s := by
  cases s <;> rfl

theorem executeRecoveryStrategy_snd (cfg : Config) (s : Strategy)
    (t : ErrorType) (q : Option String) (net : NetworkStatus) (rc : Nat) (j : ℚ) :
    (executeRecoveryStrategy cfg s t q net rc j).2 =
      if s = Strategy.retry then rc + 1 else rc := by
  cases s <;> rfl

theorem getFinalFallbackStrategy_eq (k : ErrorType) :
    getFinalFallbackStrategy k =
      if k = ErrorType.performance_error then Strategy.disable_video
      else Strategy.static_background := by
  cases k <;> rfl

theorem getFinalFallbackStrategy_ne_retry (k : ErrorType) :
    getFinalFallbackStrategy k ≠ Strategy.retry := by
  cases k <;> simp [getFinalFallbackStrategy]

theorem determineRecoveryStrategy_retry_lt (cfg : Config) (k : ErrorType)
    (rc : Nat) (net : NetworkStatus)
    (h : determineRecoveryStrategy cfg k rc net = Strategy.retry) :
    rc < cfg.maxRetries := by
  by_cases hge : rc ≥ cfg.maxRetries
  · rw [determineRecoveryStrategy.eq_def, if_pos hge] at h
    exact absurd h (getFinalFallbackStrategy_ne_retry k)
  · omega

theorem handleErrorStep_strategy (cfg : Config) (st : SessionState) (e : Err)
    (ctx : Ctx) (conn : ConnectionInfo) (mp : Bool) (j : ℚ) :
    (handleErrorStep cfg st e ctx conn mp j).1.strategy =
      determineRecoveryStrategy cfg (classifyError cfg e ctx conn.isOnline mp)
        st.retryCount (checkNetworkStatus conn) := by
  simp only [handleErrorStep]
  exact executeRecoveryStrategy_fst_strategy ..

theorem handleErrorStep_retryCount (cfg : Config) (st : SessionState) (e : Err)
    (ctx : Ctx) (conn : ConnectionInfo) (mp : Bool) (j : ℚ) :
    (handleErrorStep cfg st e ctx conn mp j).2.retryCount =
      if determineRecoveryStrategy cfg (classifyError cfg e ctx conn.isOnline mp)
          st.retryCount (checkNetworkStatus conn) = Strategy.retry
      then st.retryCount + 1 else st.retryCount := by
  simp only [handleErrorStep]
  exact executeRecoveryStrategy_snd ..

/-! ## Claim theorems -/

/-- C1: with retryCount at or above maxRetries the planner produces the
terminal strategy of the classified kind (DisableVideo for Performance,
StaticFallback for every other kind), that action is not a Retry and does
not change retryCount; and one handleError step never pushes retryCount
beyond maxRetries. -/
theorem recoveryPlanner_terminal_bound (cfg : Config) (st : SessionState)
    (e : Err) (ctx : Ctx) (conn : ConnectionInfo) (mp : Bool) (j : ℚ) :
    (st.retryCount ≥ cfg.maxRetries →
      (handleErrorStep cfg st e ctx conn mp j).1.strategy =
        (if classifyError cfg e ctx conn.isOnline mp = ErrorType.performance_error
          then Strategy.disable_video else Strategy.static_background) ∧
      (handleErrorStep cfg st e ctx conn mp j).1.strategy ≠ Strategy.retry ∧
      (handleErrorStep cfg st e ctx conn mp j).2.retryCount = st.retryCount) ∧
    (st.retryCount ≤ cfg.maxRetries →
      (handleErrorStep cfg st e ctx conn mp j).2.retryCount ≤ cfg.maxRetries) := by
  constructor
  · intro hge
    have hstrat : determineRecoveryStrategy cfg
        (classifyError cfg e ctx conn.isOnline mp) st.retryCount
        (checkNetworkStatus conn) =
        getFinalFallbackStrategy (classifyError cfg e ctx conn.isOnline mp) := by
      rw [determineRecoveryStrategy.eq_def, if_pos hge]
    refine ⟨?_, ?_, ?_⟩
    · rw [handleErrorStep_strategy, hstrat, getFinalFallbackStrategy_eq]
    · rw [handleErrorStep_strategy, hstrat]
      exact getFinalFallbackStrategy_ne_retry _
    · rw [handleErrorStep_retryCount, hstrat,
        if_neg (getFinalFallbackStrategy_ne_retry _)]
  · intro hle
    rw [handleErrorStep_retryCount]
    by_cases hr : determineRecoveryStrategy cfg
        (classifyError cfg e ctx conn.isOnline mp) st.retryCount
        (checkNetworkStatus conn) = Strategy.retry
    · rw [if_pos hr]
      have := determineRecoveryStrategy_retry_lt cfg _ st.retryCount _ hr
      omega
    · rw [if_neg hr]
      exact hle

/-- C1 witness: at retryCount = maxRetries = 3 for a network failure the
step yields StaticFallback, not Retry, and keeps retryCount at 3. -/
theorem recoveryPlanner_terminal_bound_witness :
    ((handleErrorStep defaultConfig ⟨3, ⟨none, none, 0, 0⟩, "high"⟩ ⟨"network down"⟩
        ⟨none, none, none, none, some "high"⟩ ⟨true, "4g", none, none, false⟩
        false 0).1.strategy = Strategy.static_background ∧
      (handleErrorStep defaultConfig ⟨3, ⟨none, none, 0, 0⟩, "high"⟩ ⟨"network down"⟩
        ⟨none, none, none, none, some "high"⟩ ⟨true, "4g", none, none, false⟩
        false 0).1.strategy ≠ Strategy.retry ∧
      (handleErrorStep defaultConfig ⟨3, ⟨none, none, 0, 0⟩, "high"⟩ ⟨"network down"⟩
        ⟨none, none, none, none, some "high"⟩ ⟨true, "4g", none, none, false⟩
        false 0).2.retryCount = 3) ∧
    (handleErrorStep defaultConfig ⟨3, ⟨none, none, 0, 0⟩, "high"⟩ ⟨"network down"⟩
        ⟨none, none, none, none, some "high"⟩ ⟨true, "4g", none, none, false⟩
        false 0).2.retryCount ≤ 3 := by
  have h := recoveryPlanner_terminal_bound defaultConfig ⟨3, ⟨none, none, 0, 0⟩, "high"⟩
    ⟨"network down"⟩ ⟨none, none, none, none, some "high"⟩
    ⟨true, "4g", none, none, false⟩ false 0
  have h1 := h.1 (by decide)
  have h2 := h.2 (by decide)
  exact ⟨⟨h1.1.trans (by decide), h1.2.1, h1.2.2⟩, h2⟩

/-- C5: classifyError is the first-match evaluation of the six kind
predicates in the order Network, Codec, Performance, Timeout, Playback
with Loading as default; and an error whose text matches the timeout
pattern (Network predicate) on an element with a decode error code
(Codec predicate) satisfies both yet is classified Network. -/
theorem classifyError_precedence (cfg : Config) (e : Err) (ctx : Ctx)
    (online : Bool) (mp : Bool) :
    classifyError cfg e ctx online mp =
      firstMatch
        [(isNetworkError e online ctx.networkInfo, ErrorType.network_error),
         (isCodecError e ctx.videoElement, ErrorType.codec_error),
         (isPerformanceError cfg ctx mp, ErrorType.performance_error),
         (isTimeoutError cfg e ctx, ErrorType.timeout_error),
         ((match ctx.videoElement with
            | some v => v.error.isSome
            | none => false), ErrorType.playback_error)]
        ErrorType.loading_error ∧
    isNetworkError ⟨"load timeout"⟩ true none = true ∧
    isCodecError ⟨"load timeout"⟩ (some ⟨some ⟨3⟩⟩) = true ∧
    classifyError defaultConfig ⟨"load timeout"⟩
      ⟨some ⟨some ⟨3⟩⟩, none, none, none, none⟩ true false =
      ErrorType.network_error := by
  refine ⟨rfl, by decide, by decide, by decide⟩

/-- C9: both reset entry points (recordSuccessfulLoad on a successful
start, and the explicit reset) zero the retry count and leave the
current quality tier of the session unchanged. -/
theorem successfulLoad_frame (st : SessionState) (now : Nat) :
    (recordSuccessfulLoad st now).retryCount = 0 ∧
    (recordSuccessfulLoad st now).currentQuality = st.currentQuality ∧
    (reset st).retryCount = 0 ∧
    (reset st).currentQuality = st.currentQuality :=
  ⟨rfl, rfl, rfl, rfl⟩

/-- C6: a Retry action computes min(baseDelay * 2 ^ retryCount + jitter,
10000) from the pre-increment retry count, increments the count by one,
the delay is capped at 10000, and with baseDelay 1000 the deterministic
component is non-decreasing over consecutive retries. -/
theorem retry_backoff_delay (cfg : Config) (rc : Nat) (j : ℚ)
    (t : ErrorType) (q : Option String) (net : NetworkStatus)
    (_h0 : 0 ≤ j) (_h1 : j < 1000) :
    (executeRecoveryStrategy cfg Strategy.retry t q net rc j).1.delay =
      some (min (cfg.retryDelay * 2 ^ rc + j) 10000) ∧
    (executeRecoveryStrategy cfg Strategy.retry t q net rc j).2 = rc + 1 ∧
    calculateRetryDelay cfg rc j ≤ 10000 ∧
    (1000 : ℚ) * 2 ^ rc ≤ 1000 * 2 ^ (rc + 1) := by
  refine ⟨rfl, rfl, min_le_right _ _, ?_⟩
  have hp : (2 : ℚ) ^ rc ≤ 2 ^ (rc + 1) :=
    pow_le_pow_right₀ one_le_two (Nat.le_succ rc)
  exact mul_le_mul_of_nonneg_left hp (by norm_num)

/-- C6 witness at retryCount 0 with jitter 0. -/
theorem retry_backoff_delay_witness :
    (executeRecoveryStrategy defaultConfig Strategy.retry ErrorType.timeout_error
      none ⟨true, false, false, "4g", none, none⟩ 0 0).1.delay =
      some (min (defaultConfig.retryDelay * 2 ^ 0 + 0) 10000) ∧
    (executeRecoveryStrategy defaultConfig Strategy.retry ErrorType.timeout_error
      none ⟨true, false, false, "4g", none, none⟩ 0 0).2 = 0 + 1 ∧
    calculateRetryDelay defaultConfig 0 0 ≤ 10000 ∧
    (1000 : ℚ) * 2 ^ 0 ≤ 1000 * 2 ^ (0 + 1) :=
  retry_backoff_delay defaultConfig 0 0 ErrorType.timeout_error none
    ⟨true, false, false, "4g", none, none⟩ (by norm_num) (by norm_num)

/-- C2 counterexample: a Network-kind failure on a slow (2g) online
connection with current tier high and retryCount 0 gets a ReduceQuality
action whose target is low, not the immediate lower neighbor medium the
claim requires. -/
theorem networkSlow_target_counterexample :
    classifyError defaultConfig ⟨"network error"⟩
      ⟨none, none, none, none, some "high"⟩ true false =
      ErrorType.network_error ∧
    (checkNetworkStatus ⟨true, "2g", none, none, false⟩).isOnline = true ∧
    (checkNetworkStatus ⟨true, "2g", none, none, false⟩).isSlowConnection = true ∧
    (handleErrorStep defaultConfig ⟨0, ⟨none, none, 0, 0⟩, "high"⟩ ⟨"network error"⟩
      ⟨none, none, none, none, some "high"⟩ ⟨true, "2g", none, none, false⟩
      false 0).1.strategy = Strategy.reduce_quality ∧
    ((handleErrorStep defaultConfig ⟨0, ⟨none, none, 0, 0⟩, "high"⟩ ⟨"network error"⟩
      ⟨none, none, none, none, some "high"⟩ ⟨true, "2g", none, none, false⟩
      false 0).1.qualityReduction.map QualityReduction.toQuality) = some "low" ∧
    ¬ ((handleErrorStep defaultConfig ⟨0, ⟨none, none, 0, 0⟩, "high"⟩ ⟨"network error"⟩
      ⟨none, none, none, none, some "high"⟩ ⟨true, "2g", none, none, false⟩
      false 0).1.qualityReduction.map QualityReduction.toQuality) = some "medium" := by
  refine ⟨by decide, rfl, rfl, rfl, rfl, by decide⟩

/-- C2 (amended): for a Network-kind failure with retryCount below
maxRetries, offline yields StaticFallback; online and slow yields
ReduceQuality with target low (the lowest tier, whatever the current
tier); online and not slow yields Retry. -/
theorem networkErrorStrategy_amended (cfg : Config) (st : SessionState)
    (e : Err) (ctx : Ctx) (conn : ConnectionInfo) (mp : Bool) (j : ℚ)
    (hk : classifyError cfg e ctx conn.isOnline mp = ErrorType.network_error)
    (hrc : st.retryCount < cfg.maxRetries) :
    (conn.isOnline = false →
      (handleErrorStep cfg st e ctx conn mp j).1.strategy =
        Strategy.static_background ∧
      (handleErrorStep cfg st e ctx conn mp j).1.fallbackType = some "static") ∧
    (conn.isOnline = true → isSlowConnection conn = true →
      (handleErrorStep cfg st e ctx conn mp j).1.strategy =
        Strategy.reduce_quality ∧
      ((handleErrorStep cfg st e ctx conn mp j).1.qualityReduction.map
        QualityReduction.toQuality) = some "low") ∧
    (conn.isOnline = true → isSlowConnection conn = false →
      (handleErrorStep cfg st e ctx conn mp j).1.strategy = Strategy.retry) := by
  have hnot : ¬ st.retryCount ≥ cfg.maxRetries := by omega
  refine ⟨fun ho => ?_, fun ho hs => ?_, fun ho hs => ?_⟩
  · rw [ho] at hk
    simp [handleErrorStep, ho, hk, determineRecoveryStrategy.eq_def, if_neg hnot,
      getNetworkErrorStrategy, checkNetworkStatus, executeRecoveryStrategy]
  · rw [ho] at hk
    simp [handleErrorStep, ho, hk, determineRecoveryStrategy.eq_def, if_neg hnot,
      getNetworkErrorStrategy, checkNetworkStatus, hs, executeRecoveryStrategy,
      calculateQualityReduction]
  · rw [ho] at hk
    simp [handleErrorStep, ho, hk, determineRecoveryStrategy.eq_def, if_neg hnot,
      getNetworkErrorStrategy, checkNetworkStatus, hs, executeRecoveryStrategy]

/-- C2 witness: the offline scenario of the specification, with
retryCount 0 and the monitor reporting offline, produces StaticFallback. -/
theorem networkErrorStrategy_amended_witness :
    (handleErrorStep defaultConfig ⟨0, ⟨none, none, 0, 0⟩, "high"⟩
      ⟨"NetworkError: fetch failed"⟩ ⟨none, none, none, none, some "high"⟩
      ⟨false, "4g", none, none, false⟩ false 0).1.strategy =
      Strategy.static_background ∧
    (handleErrorStep defaultConfig ⟨0, ⟨none, none, 0, 0⟩, "high"⟩
      ⟨"NetworkError: fetch failed"⟩ ⟨none, none, none, none, some "high"⟩
      ⟨false, "4g", none, none, false⟩ false 0).1.fallbackType = some "static" :=
  (networkErrorStrategy_amended defaultConfig ⟨0, ⟨none, none, 0, 0⟩, "high"⟩
    ⟨"NetworkError: fetch failed"⟩ ⟨none, none, none, none, some "high"⟩
    ⟨false, "4g", none, none, false⟩ false 0 (by decide) (by decide)).1 rfl

/-- C3 counterexample: a Performance-kind failure at current tier high
and retryCount 0 gets a ReduceQuality action with target medium and
reason performance_optimization, not the two-tier drop to low with
reason performance the claim requires. -/
theorem performanceDrop_counterexample :
    classifyError defaultConfig ⟨"video lag"⟩
      ⟨none, none, some 6000, none, some "high"⟩ true false =
      ErrorType.performance_error ∧
    (handleErrorStep defaultConfig ⟨0, ⟨none, none, 0, 0⟩, "high"⟩ ⟨"video lag"⟩
      ⟨none, none, some 6000, none, some "high"⟩ ⟨true, "4g", none, none, false⟩
      false 0).1.strategy = Strategy.reduce_quality ∧
    (handleErrorStep defaultConfig ⟨0, ⟨none, none, 0, 0⟩, "high"⟩ ⟨"video lag"⟩
      ⟨none, none, some 6000, none, some "high"⟩ ⟨true, "4g", none, none, false⟩
      false 0).1.qualityReduction =
      some ⟨"high", "medium", "performance_optimization"⟩ ∧
    ¬ (handleErrorStep defaultConfig ⟨0, ⟨none, none, 0, 0⟩, "high"⟩ ⟨"video lag"⟩
      ⟨none, none, some 6000, none, some "high"⟩ ⟨true, "4g", none, none, false⟩
      false 0).1.qualityReduction = some ⟨"high", "low", "performance"⟩ := by
  refine ⟨by decide, rfl, rfl, by decide⟩

/-- C3 (amended): for a Performance-kind failure with retryCount below
maxRetries the action is ReduceQuality whose target is one tier below
the current tier (clamped at the lowest), with reason
performance_optimization. -/
theorem performanceDrop_amended (cfg : Config) (st : SessionState)
    (e : Err) (ctx : Ctx) (conn : ConnectionInfo) (mp : Bool) (j : ℚ) (cq : String)
    (hk : classifyError cfg e ctx conn.isOnline mp = ErrorType.performance_error)
    (hrc : st.retryCount < cfg.maxRetries)
    (hq : ctx.currentQuality = some cq)
    (hcq : cq = "high" ∨ cq = "medium" ∨ cq = "low") :
    (handleErrorStep cfg st e ctx conn mp j).1.strategy =
      Strategy.reduce_quality ∧
    (handleErrorStep cfg st e ctx conn mp j).1.qualityReduction =
      some ⟨cq, if cq = "high" then "medium" else "low",
        "performance_optimization"⟩ := by
  have hnot : ¬ st.retryCount ≥ cfg.maxRetries := by omega
  constructor
  · simp [handleErrorStep, hk, determineRecoveryStrategy.eq_def, if_neg hnot,
      executeRecoveryStrategy]
  · rcases hcq with h | h | h <;> subst h <;>
      simp [handleErrorStep, hk, hq, determineRecoveryStrategy.eq_def,
        if_neg hnot, executeRecoveryStrategy, calculateQualityReduction,
        qualityLevels, jsIndexOf]

/-- C3 witness: performance failure at tier high drops to medium. -/
theorem performanceDrop_amended_witness :
    (handleErrorStep defaultConfig ⟨0, ⟨none, none, 0, 0⟩, "high"⟩ ⟨"video lag"⟩
      ⟨none, none, some 6000, none, some "high"⟩ ⟨true, "4g", none, none, false⟩
      false 0).1.strategy = Strategy.reduce_quality ∧
    (handleErrorStep defaultConfig ⟨0, ⟨none, none, 0, 0⟩, "high"⟩ ⟨"video lag"⟩
      ⟨none, none, some 6000, none, some "high"⟩ ⟨true, "4g", none, none, false⟩
      false 0).1.qualityReduction =
      some ⟨"high", "medium", "performance_optimization"⟩ :=
  performanceDrop_amended defaultConfig ⟨0, ⟨none, none, 0, 0⟩, "high"⟩
    ⟨"video lag"⟩ ⟨none, none, some 6000, none, some "high"⟩
    ⟨true, "4g", none, none, false⟩ false 0 "high" (by decide) (by decide) rfl
    (Or.inl rfl)

/-- C4: a media-element error with code 4 and message
MEDIA_ERR_SRC_NOT_SUPPORTED is classified Codec and planned as
ReduceQuality, but the computed quality reduction keeps the current tier
(from high to high, reason error_recovery) instead of moving to the
next-lower tier: the reduce_quality strategy performs no reduction for
codec errors. -/
theorem codecReduction_noop :
    classifyError defaultConfig ⟨"MEDIA_ERR_SRC_NOT_SUPPORTED"⟩
      ⟨some ⟨some ⟨4⟩⟩, none, none, none, some "high"⟩ true false =
      ErrorType.codec_error ∧
    (handleErrorStep defaultConfig ⟨0, ⟨none, none, 0, 0⟩, "high"⟩
      ⟨"MEDIA_ERR_SRC_NOT_SUPPORTED"⟩ ⟨some ⟨some ⟨4⟩⟩, none, none, none, some "high"⟩
      ⟨true, "4g", none, none, false⟩ false 0).1.strategy =
      Strategy.reduce_quality ∧
    (handleErrorStep defaultConfig ⟨0, ⟨none, none, 0, 0⟩, "high"⟩
      ⟨"MEDIA_ERR_SRC_NOT_SUPPORTED"⟩ ⟨some ⟨some ⟨4⟩⟩, none, none, none, some "high"⟩
      ⟨true, "4g", none, none, false⟩ false 0).1.qualityReduction =
      some ⟨"high", "high", "error_recovery"⟩ ∧
    ¬ ((handleErrorStep defaultConfig ⟨0, ⟨none, none, 0, 0⟩, "high"⟩
      ⟨"MEDIA_ERR_SRC_NOT_SUPPORTED"⟩ ⟨some ⟨some ⟨4⟩⟩, none, none, none, some "high"⟩
      ⟨true, "4g", none, none, false⟩ false 0).1.qualityReduction.map
        QualityReduction.toQuality) = some "medium" := by
  refine ⟨by decide, rfl, rfl, by decide⟩

/-! ## Lemmas about the source-selection loop -/

theorem string_append_left_cancel (p a b : String) (h : p ++ a = p ++ b) :
    a = b := by
  apply String.ext
  have hd := congrArg String.data h
  rw [String.data_append, String.data_append] at hd
  exact List.append_cancel_left hd

theorem fallbackLoop_spec (baseUrl : String) (dc : DeviceConfig)
    (pc : QualityConfig) (l : List String) (acc : Sources) :
    ∃ s extra, fallbackLoop baseUrl dc (some pc) acc l = Except.ok s ∧
      s.mp4 = acc.mp4 ++ extra ∧
      ∀ x ∈ extra, x.src ≠ baseUrl ++ pc.mp4 := by
  induction l generalizing acc with
  | nil => exact ⟨acc, [], rfl, (List.append_nil _).symm, by simp⟩
  | cons fq rest ih =>
    cases hfc : jsLookup dc fq with
    | none =>
      obtain ⟨s, extra, hok, hmp4, hx⟩ := ih acc
      refine ⟨s, extra, ?_, hmp4, hx⟩
      simp only [fallbackLoop, hfc]
      exact hok
    | some fc =>
      by_cases hne4 : fc.mp4 ≠ pc.mp4
      · obtain ⟨s, extra, hok, hmp4, hx⟩ := ih
          ⟨acc.webm ++
            (if fc.webm ≠ fc.mp4 ∧ fc.webm ≠ pc.webm then
              [mkWebmSource baseUrl fq fc] else []),
           acc.mp4 ++
            (if fc.mp4 ≠ pc.mp4 then [mkMp4Source baseUrl fq fc] else [])⟩
        refine ⟨s,
          (if fc.mp4 ≠ pc.mp4 then [mkMp4Source baseUrl fq fc] else []) ++ extra,
          ?_, ?_, ?_⟩
        · simp only [fallbackLoop, hfc]
          rw [if_pos hne4]
          exact hok
        · rw [hmp4]
          simp [List.append_assoc]
        · intro x hxmem
          rcases List.mem_append.1 hxmem with hxm | hxm

          · rw [if_pos hne4] at hxm
            simp only [List.mem_singleton] at hxm
            subst hxm
            intro hcontra
            exact hne4 (string_append_left_cancel baseUrl fc.mp4 pc.mp4 hcontra)
          · exact hx x hxm
      · obtain ⟨s, extra, hok, hmp4, hx⟩ := ih acc
        refine ⟨s, extra, ?_, hmp4, hx⟩
        simp only [fallbackLoop, hfc]
        rw [if_neg hne4]
        exact hok

/-- The catalog of the C7 scenarios: the mobile device class is present
but carries only a high-tier entry. -/
def c7catalog : Catalog :=
  [("mobile",
    [("high", ⟨"background-video.mp4", "background-video.webm", "auto", "auto"⟩)])]

/-- C7 counterexample: with a catalog whose mobile entry has only a
high-tier asset, selecting quality low on mobile raises no error yet
returns an empty source list, although the catalog contains an entry for
the device class. -/
theorem sourceList_nonempty_counterexample :
    (jsLookup c7catalog "mobile").isSome = true ∧
    getDeviceSpecificSources c7catalog "mobile" "/assets/" "low" =
      Except.ok ⟨[], []⟩ ∧
    (⟨[], []⟩ : Sources).mp4 = [] :=
  ⟨rfl, rfl, rfl⟩

/-- C7 (amended): if the catalog contains an entry for the resolved
(device class, tier) pair then selection returns without error and the
mp4 list is non-empty; if the catalog contains no entry for the device
class, selection returns the single-entry fallback list pointing at the
configured default asset. -/
theorem sourceSelection_amended (catalog : Catalog) (dt baseUrl q : String)
    (h : match jsLookup catalog dt with
         | none => True
         | some dc => (jsLookup dc q).isSome = true) :
    ∃ s, getDeviceSpecificSources catalog dt baseUrl q = Except.ok s ∧
      s.mp4 ≠ [] ∧
      (jsLookup catalog dt = none →
        s = getFallbackSources baseUrl ∧ s.mp4.length = 1) := by
  cases hdc : jsLookup catalog dt with
  | none =>
    refine ⟨getFallbackSources baseUrl, ?_, by simp [getFallbackSources],
      fun _ => ⟨rfl, rfl⟩⟩
    simp [getDeviceSpecificSources, hdc]
  | some dc =>
    rw [hdc] at h
    obtain ⟨pc, hpc⟩ := Option.isSome_iff_exists.1 h
    by_cases hlow : q = "low"
    · subst hlow
      refine ⟨⟨(if pc.webm ≠ pc.mp4 then [mkWebmSource baseUrl "low" pc] else []),
        [mkMp4Source baseUrl "low" pc]⟩, ?_, by simp, ?_⟩
      · simp [getDeviceSpecificSources, hdc, hpc]
      · intro hnone
        exact Option.noConfusion hnone
    · obtain ⟨s, extra, hok, hmp4, hx⟩ := fallbackLoop_spec baseUrl dc pc
        (getFallbackQualities q)
        ⟨(if pc.webm ≠ pc.mp4 then [mkWebmSource baseUrl q pc] else []),
         [mkMp4Source baseUrl q pc]⟩
      refine ⟨s, ?_, ?_, ?_⟩
      · simp only [getDeviceSpecificSources, hdc, hpc, if_neg hlow]
        exact hok
      · rw [hmp4]
        simp
      · intro hnone
        exact Option.noConfusion hnone

/-- C7 witness: with the high-tier entry present and quality high the
selection succeeds with a non-empty list. -/
theorem sourceSelection_amended_witness :
    ∃ s, getDeviceSpecificSources c7catalog "mobile" "/assets/" "high" =
      Except.ok s ∧ s.mp4 ≠ [] ∧
      (jsLookup c7catalog "mobile" = none →
        s = getFallbackSources "/assets/" ∧ s.mp4.length = 1) :=
  sourceSelection_amended c7catalog "mobile" "/assets/" "high" (by exact rfl)

/-- The catalog of the C8 scenarios: the medium and low tiers point at
the same asset, which differs from the high-tier asset. -/
def c8catalog : Catalog :=
  [("mobile",
    [("high", ⟨"high.mp4", "high.webm", "1080p", "5000k"⟩),
     ("medium", ⟨"shared.mp4", "shared.webm", "720p", "2500k"⟩),
     ("low", ⟨"shared.mp4", "shared.webm", "480p", "1000k"⟩)])]

/-- The source list produced for the C8 catalog at quality high. -/
def c8sources : Sources :=
  ⟨[⟨"/assets/high.webm", "video/webm", "high", "1080p", some "5000k"⟩,
    ⟨"/assets/shared.webm", "video/webm", "medium", "720p", some "2500k"⟩,
    ⟨"/assets/shared.webm", "video/webm", "low", "480p", some "1000k"⟩],
   [⟨"/assets/high.mp4", "video/mp4", "high", "1080p", some "5000k"⟩,
    ⟨"/assets/shared.mp4", "video/mp4", "medium", "720p", some "2500k"⟩,
    ⟨"/assets/shared.mp4", "video/mp4", "low", "480p", some "1000k"⟩]⟩

/-- C8 counterexample: two lower tiers sharing one uri both survive the
comparison against the primary, so the produced mp4 list carries the
same uri twice. -/
theorem sourceList_duplicate_counterexample :
    getDeviceSpecificSources c8catalog "mobile" "/assets/" "high" =
      Except.ok c8sources ∧
    ¬ (c8sources.mp4.map Source.src).Nodup :=
  ⟨rfl, by decide⟩

/-- C8 (amended): lower-tier mp4 descriptors are deduplicated only
against the primary descriptor: when the catalog entry for the resolved
(device class, tier) pair exists and selection succeeds, the mp4 list
starts with the primary descriptor and no later entry carries the
primary uri; duplicates among the lower tiers themselves are not
prevented. -/
theorem sourceList_dedup_amended (catalog : Catalog) (dt baseUrl q : String)
    (dc : DeviceConfig) (pc : QualityConfig) (s : Sources)
    (hdc : jsLookup catalog dt = some dc)
    (hpc : jsLookup dc q = some pc)
    (hs : getDeviceSpecificSources catalog dt baseUrl q = Except.ok s) :
    ∃ rest, s.mp4 = mkMp4Source baseUrl q pc :: rest ∧
      ∀ x ∈ rest, x.src ≠ (mkMp4Source baseUrl q pc).src := by
  by_cases hlow : q = "low"
  · subst hlow
    have h2 : getDeviceSpecificSources catalog dt baseUrl "low" =
        Except.ok ⟨(if pc.webm ≠ pc.mp4 then [mkWebmSource baseUrl "low" pc] else []),
          [mkMp4Source baseUrl "low" pc]⟩ := by
      simp [getDeviceSpecificSources, hdc, hpc]
    have hss := Except.ok.inj (h2.symm.trans hs)
    refine ⟨[], ?_, by simp⟩
    rw [← hss]
  · obtain ⟨s', extra, hok, hmp4, hx⟩ := fallbackLoop_spec baseUrl dc pc
      (getFallbackQualities q)
      ⟨(if pc.webm ≠ pc.mp4 then [mkWebmSource baseUrl q pc] else []),
       [mkMp4Source baseUrl q pc]⟩
    have h2 : getDeviceSpecificSources catalog dt baseUrl q = Except.ok s' := by
      simp only [getDeviceSpecificSources, hdc, hpc, if_neg hlow]
      exact hok
    have hss := Except.ok.inj (h2.symm.trans hs)
    subst hss
    refine ⟨extra, ?_, hx⟩
    rw [hmp4]
    rfl

/-- C8 witness: for the shared-asset catalog the mp4 list starts with
the high-tier primary and no later entry repeats the primary uri. -/
theorem sourceList_dedup_amended_witness :
    ∃ rest, c8sources.mp4 =
      mkMp4Source "/assets/" "high" ⟨"high.mp4", "high.webm", "1080p", "5000k"⟩ :: rest ∧
      ∀ x ∈ rest, x.src ≠
        (mkMp4Source "/assets/" "high" ⟨"high.mp4", "high.webm", "1080p", "5000k"⟩).src :=
  sourceList_dedup_amended c8catalog "mobile" "/assets/" "high"
    [("high", ⟨"high.mp4", "high.webm", "1080p", "5000k"⟩),
     ("medium", ⟨"shared.mp4", "shared.webm", "720p", "2500k"⟩),
     ("low", ⟨"shared.mp4", "shared.webm", "480p", "1000k"⟩)]
    ⟨"high.mp4", "high.webm", "1080p", "5000k"⟩ c8sources rfl rfl rfl

/-- C10: a connection class with no entry in the quality-selection rules
table, and a per-device-class entry lacking the current device class,
both resolve to the medium tier. -/
theorem qualityFallback_medium (rules : RulesTable) (dt ct : String) (pr : ℚ)
    (h : match jsLookup rules ct with
         | none => True
         | some (QualityRule.perDevice m) => jsLookup m dt = none
         | some (QualityRule.str _) => False) :
    determineOptimalQuality rules dt ct pr = "medium" := by
  cases hr : jsLookup rules ct with
  | none => simp [determineOptimalQuality, hr]
  | some rule =>
    rw [hr] at h
    cases rule with
    | str q => exact h.elim
    | perDevice m => simp [determineOptimalQuality, hr, h]

/-- C10 witness: the unrecognized connection class unknown on the real
rules table, and a per-device rule that lacks the mobile class, both
resolve to medium. -/
theorem qualityFallback_medium_witness :
    determineOptimalQuality QUALITY_SELECTION_RULES "mobile" "unknown" 1 = "medium" ∧
    determineOptimalQuality [("3g", QualityRule.perDevice [("tablet", "medium")])]
      "mobile" "3g" 1 = "medium" :=
  ⟨qualityFallback_medium QUALITY_SELECTION_RULES "mobile" "unknown" 1 (by exact trivial),
   qualityFallback_medium [("3g", QualityRule.perDevice [("tablet", "medium")])]
     "mobile" "3g" 1 (by exact rfl)⟩

end TomTeller
